import Mathlib

/-!
Shallow embedding of the analysis-view query engine (Rust sources under
`src/query-engine` and `src/mcp-server`) together with proofs about the
frozen behavioural claims.

Conventions of the embedding:
* record-batch contents are irrelevant to the claims; a batch is modelled by
  its schema field names and its row count;
* the opaque SQL kernel (DataFusion) is modelled as a parameter wherever a
  claim quantifies over its output;
* fallible Rust functions returning `Result<T, AnalysisError>` become
  `Except AnalysisError T`;
* catalog/database state is explicit and passed functionally; a transaction
  is a function returning either the new state or an error (all-or-nothing
  by construction).
-/

namespace AnalysisView

/-! ## Error taxonomy (`src/query-engine/src/error.rs`) -/

inductive AnalysisError where
  | datasetNotFound (dataset_id : String)
  | invalidSqlQuery (message : String)
  | queryExecutionFailed (message : String)
  | ioError (message : String)
  | configError (message : String)
  | internalError (message : String)
  deriving DecidableEq, Repr

/-- The `#[error(...)]` display strings of `AnalysisError` (thiserror). -/
def AnalysisError.display : AnalysisError → String
  | .datasetNotFound id => "Dataset not found: " ++ id
  | .invalidSqlQuery m => "Invalid SQL query: " ++ m
  | .queryExecutionFailed m => "Query execution failed: " ++ m
  | .ioError m => "IO error: " ++ m
  | .configError m => "Configuration error: " ++ m
  | .internalError m => "Internal server error: " ++ m

/-- gRPC status codes that the service can produce. -/
inductive StatusCode where
  | ok
  | notFound
  | invalidArgument
  | internal
  deriving DecidableEq, Repr

/-- Embeds `impl From<AnalysisError> for tonic::Status` (`error.rs:58-70`). -/
def statusOf : AnalysisError → StatusCode
  | .datasetNotFound _ => .notFound
  | .invalidSqlQuery _ => .invalidArgument
  | .queryExecutionFailed _ => .internal
  | .configError _ => .invalidArgument
  | _ => .internal

/-! ## Query stream domain types (`src/query-engine/src/domain.rs`) -/

structure QueryMetadata where
  column_names : List String
  estimated_rows : Nat
  deriving DecidableEq, Repr

structure QueryDataChunk where
  chunk_rows : Nat
  chunk_index : Nat
  deriving DecidableEq, Repr

structure QueryComplete where
  total_rows : Nat
  success : Bool
  error_message : String
  deriving DecidableEq, Repr

inductive QueryFrame where
  | metadata (m : QueryMetadata)
  | dataChunk (c : QueryDataChunk)
  | complete (c : QueryComplete)
  deriving DecidableEq, Repr

structure QueryStreamResult where
  metadata : Option QueryMetadata
  chunks : List QueryDataChunk
  deriving DecidableEq, Repr

/-- A record batch, modelled by its schema field names and row count. -/
structure RecordBatch where
  fields : List String
  numRows : Nat
  deriving DecidableEq, Repr

/-! ## Result chunking (`datafusion_engine.rs:213-267`) -/

/-- Embeds `CHUNK_SIZE` in `DataFusionEngine::execute_query`. -/
def CHUNK_SIZE : Nat := 1000

/-- Row counts of the slices produced by the
`while start_row < batch.num_rows()` loop: each slice covers
`min(start_row + CHUNK_SIZE, num_rows) - start_row` rows. -/
def chunkSizes (n : Nat) : List Nat :=
  if n = 0 then []
  else if n ≤ CHUNK_SIZE then [n]
  else CHUNK_SIZE :: chunkSizes (n - CHUNK_SIZE)
termination_by n
decreasing_by simp [CHUNK_SIZE] at *; omega

/-- The `chunk_index += 1` counter threading through the chunk loop. -/
def indexChunks (sizes : List Nat) (start : Nat) : List QueryDataChunk :=
  match sizes with
  | [] => []
  | s :: rest => ⟨s, start⟩ :: indexChunks rest (start + 1)

/-- Embeds `DataFusionEngine::execute_query`, from the point where the kernel has
returned its record batches (`datafusion_engine.rs:213-267`): build the
optional metadata and the chunk list. -/
def buildStreamResult (batches : List RecordBatch) : QueryStreamResult :=
  match batches with
  | [] => { metadata := none, chunks := [] }
  | b :: _ =>
    { metadata := some
        { column_names := b.fields
          estimated_rows := (batches.map RecordBatch.numRows).sum }
      chunks := indexChunks ((batches.map RecordBatch.numRows).flatMap chunkSizes) 0 }

/-! ## gRPC streaming (`grpc_server.rs:90-182`) -/

/-- Frames sent by the success branch of `AnalysisServiceImpl::execute_query`:
optional metadata, then the chunks, then `Complete { total_rows, success:
true, error_message: "" }` where `total_rows` accumulates `chunk.chunk_rows`. -/
def successFrames (r : QueryStreamResult) : List QueryFrame :=
  (match r.metadata with
   | some m => [QueryFrame.metadata m]
   | none => []) ++
  r.chunks.map QueryFrame.dataChunk ++
  [QueryFrame.complete
    { total_rows := (r.chunks.map QueryDataChunk.chunk_rows).sum
      success := true
      error_message := "" }]

/-- Frames sent by the error branch of `AnalysisServiceImpl::execute_query`:
a single `Complete { total_rows: 0, success: false, error_message:
e.to_string() }`. -/
def errorFrames (e : AnalysisError) : List QueryFrame :=
  [QueryFrame.complete
    { total_rows := 0
      success := false
      error_message := e.display }]

/-- The items a client observes on the `ExecuteQuery` stream: each sent item
is `Ok(response)` (`tx.send(Ok(response))`), never an error status. -/
def executeQueryStreamItems (result : Except AnalysisError QueryStreamResult) :
    List (Except StatusCode QueryFrame) :=
  match result with
  | .ok r => (successFrames r).map Except.ok
  | .error e => (errorFrames e).map Except.ok

/-- The `ExecuteQuery` handler itself always returns
`Ok(Response::new(ReceiverStream::new(rx)))` (`grpc_server.rs:181`). -/
def executeQueryHandler (result : Except AnalysisError QueryStreamResult) :
    Except StatusCode (List (Except StatusCode QueryFrame)) :=
  .ok (executeQueryStreamItems result)

/-! ## SQL limit handling (`datafusion_engine.rs:190-196`, `grpc_server.rs:105`) -/

/-- Boolean substring test, the semantics of Rust `str::contains` on a
literal pattern. -/
def strContains : List Char → List Char → Bool
  | [], needle => needle.isEmpty
  | c :: rest, needle => needle.isPrefixOf (c :: rest) || strContains rest needle

/-- Characterwise ASCII lowercasing, the semantics of Rust
`str::to_lowercase` on the ASCII fragment relevant here. -/
def lowerAscii (s : String) : String :=
  ⟨s.data.map Char.toLower⟩

/-- Embeds `query.to_lowercase().contains("limit")` in
`DataFusionEngine::execute_query`. -/
def containsLimitToken (sql : String) : Bool :=
  strContains (lowerAscii sql).data "limit".data

/-- The limit-append step of `DataFusionEngine::execute_query`
(`datafusion_engine.rs:190-196`): with `Some(limit_val)` and no `limit`
substring, execute `format!("{} LIMIT {}", query, limit_val)`. -/
def applyLimit (sql : String) (limit : Option Int) : String :=
  match limit with
  | some limitVal =>
    if containsLimitToken sql then sql
    else sql ++ " LIMIT " ++ toString limitVal
  | none => sql

/-- Embeds `let limit = if req.limit > 0 { Some(req.limit) } else { None }`
(`grpc_server.rs:105`). -/
def normalizeLimit (l : Int) : Option Int :=
  if l > 0 then some l else none

/-- SQL text the kernel receives for a request-level `limit` field. -/
def executedSql (sql : String) (reqLimit : Int) : String :=
  applyLimit sql (normalizeLimit reqLimit)

/-! ## Format determination (`engine.rs:87-90`, `dataset_manager.rs:182-191`) -/

/-- Embeds `DataFormat` (`catalog.rs:7-12`): note there is no JSON variant. -/
inductive DataFormat where
  | csv
  | parquet
  deriving DecidableEq, Repr

/-- Embeds `DataFormat::as_str` (`catalog.rs:15-20`). -/
def DataFormat.asStr : DataFormat → String
  | .csv => "csv"
  | .parquet => "parquet"

/-- Embeds `format.map(|f| match f.to_lowercase().as_str() { "parquet" => Parquet,
_ => Csv })` in `AnalysisEngine::add_dataset_from_external_path`
(`engine.rs:87-90`). -/
def formatFromArg (f : String) : DataFormat :=
  if lowerAscii f = "parquet" then .parquet else .csv

/-- Embeds `format.unwrap_or_else(|| if any filename ends with ".parquet" then
Parquet else Csv)` (`dataset_manager.rs:182-191`). -/
def detectedFormat (format : Option DataFormat) (filenames : List String) :
    DataFormat :=
  format.getD
    (if filenames.any (fun f => f.endsWith ".parquet") then .parquet else .csv)

/-- The format persisted for an `AddDataset` call: the gRPC layer passes the
optional `format` string through `AnalysisEngine` (which maps it with
`formatFromArg`) into `DatasetManager` (which applies the filename
fallback). -/
def persistedFormat (formatArg : Option String) (filenames : List String) :
    DataFormat :=
  detectedFormat (formatArg.map formatFromArg) filenames

/-! ## Streaming copy (`storage.rs:28-173`) -/

/-- Object-store calls issued by `DatasetStorage::copy_from_external_storage`,
in order. Bytes are modelled as naturals. -/
inductive StorageOp where
  | copy (src dst : String)
  | get (src : String)
  | putPart (dst : String) (part : List Nat)
  | completeUpload (dst : String)
  deriving DecidableEq, Repr

/-- Embeds `BUFFER_SIZE` in `copy_from_external_storage` (10 MiB). -/
def BUFFER_SIZE : Nat := 10 * 1024 * 1024

/-- The `while let Some(chunk_result) = stream.next()` upload loop
(`storage.rs:111-155`): extend the buffer with each source chunk, flush a
part once the buffer reaches `BUFFER_SIZE`, flush any non-empty remainder
as the final part. -/
def uploadLoop (dst : String) :
    List (List Nat) → List Nat → List StorageOp
  | [], buffer =>
    if buffer.isEmpty then [] else [StorageOp.putPart dst buffer]
  | chunk :: rest, buffer =>
    let buffer' := buffer ++ chunk
    if BUFFER_SIZE ≤ buffer'.length then
      StorageOp.putPart dst buffer' :: uploadLoop dst rest []
    else
      uploadLoop dst rest buffer'

/-- Embeds `DatasetStorage::copy_from_external_storage` (`storage.rs:28-173`),
as the trace of object-store operations it issues plus the storage path it
returns. It opens the source `get()` stream, streams parts via multipart
upload, completes the upload, and returns
`gs://{bucket}/datasets/{dataset_id}/{filename}`. -/
def copyFromExternalStorage (bucket sourcePath datasetId filename : String)
    (sourceChunks : List (List Nat)) : List StorageOp × String :=
  let destPath := "datasets/" ++ datasetId ++ "/" ++ filename
  (StorageOp.get sourcePath ::
     (uploadLoop destPath sourceChunks [] ++ [StorageOp.completeUpload destPath]),
   "gs://" ++ bucket ++ "/" ++ destPath)

/-- Payload bytes of the `putPart` operations in a trace, in order. -/
def putPartPayloads : List StorageOp → List (List Nat)
  | [] => []
  | StorageOp.putPart _ p :: rest => p :: putPartPayloads rest
  | _ :: rest => putPartPayloads rest

/-- Whether an operation is a direct server-side `copy`. -/
def isCopyOp : StorageOp → Bool
  | StorageOp.copy _ _ => true
  | _ => false

/-- Whether a trace contains a direct server-side `copy` operation. -/
def traceHasCopy (ops : List StorageOp) : Bool :=
  ops.any isCopyOp

/-! ## Catalog store (`database.rs`, `catalog.rs`) -/

/-- A `dataset_files` row (`catalog.rs:54-60`), sans timestamps. -/
structure FileRow where
  filename : String
  storage_path : String
  size_bytes : Int
  row_count : Int
  deriving DecidableEq, Repr

/-- A `dataset_columns` row (`catalog.rs:81-87`); the statistics map is a
JSON value column, modelled as key/value pairs. -/
structure ColumnRow where
  name : String
  data_type : String
  nullable : Bool
  description : String
  statistics : List (String × String)
  deriving DecidableEq, Repr

/-- A `datasets` catalog row (`catalog.rs:38-51`), with timestamps and uuid
as opaque strings. -/
structure CatalogEntry where
  id : String
  name : String
  description : String
  format : DataFormat
  size_bytes : Int
  row_count : Int
  tags : List String
  created_at : String
  updated_at : String
  dataset_path : String
  metadata_path : String
  deriving DecidableEq, Repr

/-- Embeds `DatasetMetadataFile` (`catalog.rs:63-78`), the payload of
`save_metadata`, restricted to the row-producing parts. -/
structure MetadataPayload where
  id : String
  files : List FileRow
  columns : List ColumnRow
  statistics : List (String × String)
  deriving DecidableEq, Repr

/-- The relational catalog state: the `datasets`, `dataset_files`,
`dataset_columns`, `dataset_statistics` tables, each keyed by its primary
key. -/
structure Db where
  datasets : List (String × CatalogEntry)
  files : List ((String × String) × FileRow)
  columns : List ((String × String) × ColumnRow)
  stats : List ((String × String) × String)
  deriving DecidableEq, Repr

/-- Primary-key lookup in an association list. -/
def lookupKey {κ α : Type} [DecidableEq κ] : List (κ × α) → κ → Option α
  | [], _ => none
  | (k, a) :: rest, key => if k = key then some a else lookupKey rest key

/-- Embeds `INSERT ... ON CONFLICT (dataset_id, stat_key) DO UPDATE SET stat_value`
(`database.rs:210-215`): replace the value of an existing key, or append a
new row. -/
def upsertRow {κ α : Type} [DecidableEq κ] :
    List (κ × α) → κ → α → List (κ × α)
  | [], key, a => [(key, a)]
  | (k, b) :: rest, key, a =>
    if k = key then (key, a) :: rest else (k, b) :: upsertRow rest key a

/-- Plain `INSERT` of a `dataset_files` row (`database.rs:168-174`): fails
on a duplicate `(dataset_id, filename)` key. -/
def insertFileRow (db : Db) (dsId : String) (f : FileRow) :
    Except AnalysisError Db :=
  if (lookupKey db.files (dsId, f.filename)).isSome then
    .error (.configError "Failed to insert dataset file: duplicate key")
  else
    .ok { db with files := db.files ++ [((dsId, f.filename), f)] }

/-- Plain `INSERT` of a `dataset_columns` row (`database.rs:194-200`): fails
on a duplicate `(dataset_id, name)` key. -/
def insertColumnRow (db : Db) (dsId : String) (c : ColumnRow) :
    Except AnalysisError Db :=
  if (lookupKey db.columns (dsId, c.name)).isSome then
    .error (.configError "Failed to insert dataset column: duplicate key")
  else
    .ok { db with columns := db.columns ++ [((dsId, c.name), c)] }

/-- Embeds `DatabaseManager::save_metadata` (`database.rs:146-226`): inside one
transaction, insert all file rows, insert all column rows, and upsert all
statistics rows. The transaction is all-or-nothing: a failed insert leaves
the original state. -/
def saveMetadata (db : Db) (m : MetadataPayload) : Except AnalysisError Db := do
  let db ← m.files.foldlM (fun acc f => insertFileRow acc m.id f) db
  let db ← m.columns.foldlM (fun acc c => insertColumnRow acc m.id c) db
  let db := m.statistics.foldl
    (fun acc (kv : String × String) =>
      { acc with stats := upsertRow acc.stats (m.id, kv.1) kv.2 }) db
  return db

/-- Embeds `DatabaseManager::add_dataset` (`database.rs:60-96`): a plain `INSERT`
into `datasets`; duplicate ids fail with `ConfigError`. -/
def dbAddDataset (db : Db) (entry : CatalogEntry) : Except AnalysisError Db :=
  if (lookupKey db.datasets entry.id).isSome then
    .error (.configError "Failed to insert dataset: duplicate key")
  else
    .ok { db with datasets := db.datasets ++ [(entry.id, entry)] }

/-- Embeds `DatabaseManager::get_dataset` (`database.rs:98-122`). -/
def dbGetDataset (db : Db) (datasetId : String) : Option CatalogEntry :=
  lookupKey db.datasets datasetId

/-! ## Metadata read path (`dataset_manager.rs:278-312`, `engine.rs:63-77`) -/

/-- Embeds `ColumnInfo` as surfaced over gRPC (`domain.rs:5-12`). -/
structure ColumnInfo where
  name : String
  data_type : String
  nullable : Bool
  description : String
  statistics : List (String × String)
  deriving DecidableEq, Repr

/-- The `DatasetMetadata` DTO (`proto`), fields as built by
`DatasetManager::get_metadata` (`dataset_manager.rs:289-311`). -/
structure DatasetMetadataDto where
  id : String
  name : String
  description : String
  columns : List ColumnInfo
  row_count : Int
  size_bytes : Int
  format : String
  tags : List String
  statistics : List (String × String)
  created_at : String
  updated_at : String
  deriving DecidableEq, Repr

/-- A stored `ColumnRow` rendered as the DTO `ColumnInfo`
(`dataset_manager.rs:293-303`). -/
def ColumnRow.toInfo (c : ColumnRow) : ColumnInfo :=
  { name := c.name
    data_type := c.data_type
    nullable := c.nullable
    description := c.description
    statistics := c.statistics }

/-- Embeds `DatabaseManager::load_metadata` (`database.rs:228-301`) joined with the
DTO construction of `DatasetManager::get_metadata`: fails with
`DatasetNotFound` when the root `datasets` row is absent. -/
def managerGetMetadata (db : Db) (datasetId : String) :
    Except AnalysisError DatasetMetadataDto :=
  match dbGetDataset db datasetId with
  | none => .error (.datasetNotFound datasetId)
  | some entry =>
    .ok
      { id := entry.id
        name := entry.name
        description := entry.description
        columns := (db.columns.filter (fun r => r.1.1 = datasetId)).map
          (fun r => r.2.toInfo)
        row_count := entry.row_count
        size_bytes := entry.size_bytes
        format := entry.format.asStr
        tags := entry.tags
        statistics := (db.stats.filter (fun r => r.1.1 = datasetId)).map
          (fun r => (r.1.2, r.2))
        created_at := entry.created_at
        updated_at := entry.updated_at }

/-- Embeds `AnalysisEngine::get_metadata` (`engine.rs:63-77`): load the catalog
metadata, lazily register the dataset, then overwrite `columns` with the
kernel-inferred schema. The opaque kernel (lazy registration plus
`get_table_schema`) is a parameter producing the inferred columns or an
error. -/
def engineGetMetadata (db : Db)
    (kernelSchema : String → Except AnalysisError (List ColumnInfo))
    (datasetId : String) : Except AnalysisError DatasetMetadataDto := do
  let md ← managerGetMetadata db datasetId
  let cols ← kernelSchema datasetId
  return { md with columns := cols }

/-! ## Ingestion pipeline (`dataset_manager.rs:79-238`) -/

/-- Outcomes of the external effects of one
`add_dataset_from_external_path` run: per-file copy success, and the
results of the two separate database calls. These model the `?` operators
on `copy_from_external_storage`, `database.add_dataset` and
`database.save_metadata`. -/
structure IngestOutcomes where
  copyOk : String → Bool
  addDatasetOk : Bool
  saveMetadataOk : Bool

/-- Copy loop of `add_dataset_from_external_path`: each file is copied in
turn and the first failure aborts the whole call (before any database
write). Returns the successfully copied file names or the error. -/
def copyAllFiles (o : IngestOutcomes) : List String → Except AnalysisError (List String)
  | [] => .ok []
  | f :: rest =>
    if o.copyOk f then do
      let others ← copyAllFiles o rest
      return f :: others
    else
      .error (.configError ("Failed to open source stream " ++ f))

/-- Observable catalog effect of `DatasetManager::add_dataset_from_external_path`
(`dataset_manager.rs:79-238`): copy every file, then
`self.database.add_dataset(&catalog_entry).await?` and only afterwards
`self.database.save_metadata(&metadata).await?` — two separate calls, the
entry insert outside the metadata transaction. The state is the list of
observable `DatasetEntry` ids; the result is the new state paired with the
call's outcome. -/
def addDatasetFromExternalPath (catalog : List String) (datasetId : String)
    (filenames : List String) (o : IngestOutcomes) :
    List String × Except AnalysisError String :=
  match copyAllFiles o filenames with
  | .error e => (catalog, .error e)
  | .ok _ =>
    if o.addDatasetOk then
      let catalog' := catalog ++ [datasetId]
      if o.saveMetadataOk then
        (catalog', .ok datasetId)
      else
        (catalog', .error (.configError "Failed to save metadata"))
    else
      (catalog, .error (.configError "Failed to insert dataset"))

/-! ## AddDataset RPC (`grpc_server.rs:184-274`) -/

/-- Embeds `AddDatasetRequest` fields used by the handler. -/
structure AddDatasetRequest where
  name : String
  source_path : String
  description : String
  tags : List String
  format : String
  deriving DecidableEq, Repr

/-- The `Dataset` DTO as listed by `list_datasets`; only the `id` field is
inspected by the `add_dataset` handler. -/
structure DatasetDto where
  id : String
  name : String
  format : String
  deriving DecidableEq, Repr

/-- Embeds `AddDatasetResponse` fields. -/
structure AddDatasetResponse where
  success : Bool
  dataset_id : String
  message : String
  dataset : Option DatasetDto
  deriving DecidableEq, Repr

/-- Embeds `AnalysisServiceImpl::add_dataset` (`grpc_server.rs:184-274`): validate
non-empty `name` and `source_path`, call the engine, re-read the fresh
dataset from the listing on success, and sanitise the message on failure.
Every branch returns `Ok(Response::new(..))`; the handler never produces an
error status, which the `Except StatusCode` result type records. -/
def addDatasetHandler (req : AddDatasetRequest)
    (engineResult : Except AnalysisError String)
    (listing : List DatasetDto) : Except StatusCode AddDatasetResponse :=
  if req.name = "" then
    .ok { success := false, dataset_id := "",
          message := "Dataset name is required", dataset := none }
  else if req.source_path = "" then
    .ok { success := false, dataset_id := "",
          message := "Source path is required", dataset := none }
  else
    match engineResult with
    | .ok datasetId =>
      match listing.find? (fun d => d.id = datasetId) with
      | some dataset =>
        .ok { success := true, dataset_id := datasetId,
              message := "Dataset \x27" ++ datasetId ++ "\x27 added successfully",
              dataset := some dataset }
      | none =>
        .ok { success := true, dataset_id := datasetId,
              message := "Dataset \x27" ++ datasetId ++ "\x27 added successfully",
              dataset := none }
    | .error _ =>
      .ok { success := false, dataset_id := "",
            message := "Failed to add dataset. Please check the source path and try again.",
            dataset := none }

/-! ## Tool-Host façade limit default (`mcp-server/src/query_client.rs:84-88`,
`mcp-server/src/mcp_server.rs:352-374`) -/

/-- The `ExecuteQueryRequest` proto message fields. -/
structure ExecuteQueryRequest where
  dataset_id : String
  sql_query : String
  limit : Int
  deriving DecidableEq, Repr

/-- Request construction in `QueryEngineClient::execute_query`
(`query_client.rs:84-88`): `limit: limit.unwrap_or(1000)`. -/
def clientExecuteQueryRequest (datasetId sqlQuery : String)
    (limit : Option Int) : ExecuteQueryRequest :=
  { dataset_id := datasetId
    sql_query := sqlQuery
    limit := limit.getD 1000 }

/-- Embeds `ExecuteQueryParams` of the `execute_query` tool
(`mcp_server.rs:58-63`): `limit` is optional and defaults to `None` when
omitted (`#[serde(default)]`). -/
structure ExecuteQueryParams where
  dataset_id : String
  sql_query : String
  limit : Option Int
  deriving DecidableEq, Repr

/-- Embeds `handle_execute_query` (`mcp_server.rs:352-374`) forwards `params.limit`
unchanged into `QueryEngineClient::execute_query`; the request it sends is
therefore the one built by `clientExecuteQueryRequest`. -/
def handleExecuteQueryRequest (params : ExecuteQueryParams) :
    ExecuteQueryRequest :=
  clientExecuteQueryRequest params.dataset_id params.sql_query params.limit

/-- Parameters of the `mcp_reader-servic_query_dataset` compatibility tool
(`mcp_server.rs:376-390`); `path` maps to the dataset id. -/
structure VsCodeDataset where
  name : String
  path : String
  sql : String
  deriving DecidableEq, Repr

/-- Embeds `handle_vscode_query_dataset` (`mcp_server.rs:392-415`) uses
`datasets[0]` and forwards `params.limit` unchanged into
`QueryEngineClient::execute_query`. -/
def handleVsCodeQueryRequest (dataset : VsCodeDataset) (limit : Option Int) :
    ExecuteQueryRequest :=
  clientExecuteQueryRequest dataset.path dataset.sql limit

/-! ## Helper lemmas about the chunker -/

theorem chunkSizes_mem : ∀ {n s : Nat}, s ∈ chunkSizes n → 0 < s ∧ s ≤ CHUNK_SIZE := by
  intro n
  induction n using Nat.strong_induction_on with
  | _ n ih =>
    intro s h
    rw [chunkSizes] at h
    by_cases h0 : n = 0
    · simp [h0] at h
    · by_cases h1 : n ≤ CHUNK_SIZE
      · simp [h0, h1] at h
        subst h
        exact ⟨Nat.pos_of_ne_zero h0, h1⟩
      · simp [h0, h1] at h
        rcases h with h | h
        · subst h
          refine ⟨?_, le_refl _⟩
          simp [CHUNK_SIZE]
        · exact ih (n - CHUNK_SIZE) (by simp [CHUNK_SIZE] at h1 ⊢; omega) h

theorem chunkSizes_sum : ∀ n, (chunkSizes n).sum = n := by
  intro n
  induction n using Nat.strong_induction_on with
  | _ n ih =>
    rw [chunkSizes]
    by_cases h0 : n = 0
    · simp [h0]
    · by_cases h1 : n ≤ CHUNK_SIZE
      · simp [h0, h1]
      · have hrec := ih (n - CHUNK_SIZE) (by simp [CHUNK_SIZE] at h1 ⊢; omega)
        simp [h0, h1, hrec]
        simp [CHUNK_SIZE] at h1 ⊢
        omega

theorem indexChunks_map_rows : ∀ (l : List Nat) (i : Nat),
    (indexChunks l i).map QueryDataChunk.chunk_rows = l := by
  intro l
  induction l with
  | nil => intro i; rfl
  | cons a t iht => intro i; simp [indexChunks, iht]

theorem indexChunks_map_index : ∀ (l : List Nat) (i : Nat),
    (indexChunks l i).map QueryDataChunk.chunk_index = List.range' i l.length := by
  intro l
  induction l with
  | nil => intro i; rfl
  | cons a t iht => intro i; simp [indexChunks, iht, List.range']

theorem indexChunks_length (l : List Nat) (i : Nat) :
    (indexChunks l i).length = l.length := by
  have := congrArg List.length (indexChunks_map_rows l i)
  simpa using this

theorem sum_flatMap_chunkSizes : ∀ (l : List Nat),
    (l.flatMap chunkSizes).sum = l.sum := by
  intro l
  induction l with
  | nil => rfl
  | cons a t iht => simp [List.flatMap_cons, List.sum_append, chunkSizes_sum, iht]

/-- C1: for every `ExecuteQuery` whose execution succeeds, the stream is
the optional metadata frame, then the data chunks with contiguous 0-based
`chunk_index` and `0 < chunk_rows ≤ 1000`, then exactly one
`Complete{success = true}`; the chunk-row sum equals both
`Complete.total_rows` and `Metadata.estimated_rows`; an empty result (the
kernel returned no batches) yields no metadata, no chunks, and
`Complete.total_rows = 0`. -/
theorem execute_query_success_stream_shape (batches : List RecordBatch) :
    ((buildStreamResult batches).chunks.map QueryDataChunk.chunk_index
        = List.range (buildStreamResult batches).chunks.length)
    ∧ (∀ c ∈ (buildStreamResult batches).chunks,
        0 < c.chunk_rows ∧ c.chunk_rows ≤ 1000)
    ∧ successFrames (buildStreamResult batches) =
        (match (buildStreamResult batches).metadata with
          | some m => [QueryFrame.metadata m]
          | none => []) ++
        (buildStreamResult batches).chunks.map QueryFrame.dataChunk ++
        [QueryFrame.complete
          { total_rows :=
              ((buildStreamResult batches).chunks.map QueryDataChunk.chunk_rows).sum
            success := true
            error_message := "" }]
    ∧ (∀ m, (buildStreamResult batches).metadata = some m →
        m.estimated_rows =
          ((buildStreamResult batches).chunks.map QueryDataChunk.chunk_rows).sum)
    ∧ ((buildStreamResult batches).metadata.isSome ↔ batches ≠ [])
    ∧ (batches = [] →
        (buildStreamResult batches).chunks = [] ∧
        successFrames (buildStreamResult batches) =
          [QueryFrame.complete { total_rows := 0, success := true, error_message := "" }]) := by
  refine ⟨?_, ?_, rfl, ?_, ?_, ?_⟩
  · cases batches with
    | nil => rfl
    | cons b bs =>
      simp only [buildStreamResult]
      rw [indexChunks_map_index, indexChunks_length, List.range_eq_range']
  · intro c hc
    cases batches with
    | nil => simp [buildStreamResult] at hc
    | cons b bs =>
      simp only [buildStreamResult] at hc
      have hrow : c.chunk_rows ∈ ((b :: bs).map RecordBatch.numRows).flatMap chunkSizes := by
        rw [← indexChunks_map_rows (((b :: bs).map RecordBatch.numRows).flatMap chunkSizes) 0]
        exact List.mem_map_of_mem _ hc
      rcases List.mem_flatMap.mp hrow with ⟨n, _, hmem⟩
      exact chunkSizes_mem hmem
  · intro m hm
    cases batches with
    | nil => simp [buildStreamResult] at hm
    | cons b bs =>
      simp only [buildStreamResult, Option.some.injEq] at hm ⊢
      subst hm
      rw [indexChunks_map_rows, sum_flatMap_chunkSizes]
  · cases batches with
    | nil => simp [buildStreamResult]
    | cons b bs => simp [buildStreamResult]
  · intro h
    subst h
    exact ⟨rfl, rfl⟩

/-- C2 (counterexample): for a concrete invalid-SQL execution, the claim
that "the RPC status observed by the client is InvalidArgument" is false —
the handler returns an OK response and every stream item is `Ok(frame)`;
the only thing the client sees is a `Complete{success = false}` frame. The
`InvalidSqlQuery → InvalidArgument` mapping exists (`statusOf`) but the
streaming path never applies it. -/
theorem execute_query_invalid_sql_status_counterexample :
    (executeQueryHandler
        (.error (.invalidSqlQuery "sql parser error: found SELEC"))).isOk = true
    ∧ executeQueryStreamItems (.error (.invalidSqlQuery "sql parser error: found SELEC")) =
        [.ok (QueryFrame.complete
          { total_rows := 0, success := false,
            error_message := "Invalid SQL query: sql parser error: found SELEC" })]
    ∧ (∀ x ∈ executeQueryStreamItems
          (.error (.invalidSqlQuery "sql parser error: found SELEC")),
        x ≠ .error StatusCode.invalidArgument)
    ∧ statusOf (.invalidSqlQuery "sql parser error: found SELEC") = .invalidArgument := by
  refine ⟨rfl, rfl, ?_, rfl⟩
  intro x hx
  simp [executeQueryStreamItems, errorFrames] at hx
  subst hx
  intro h
  exact Except.noConfusion h

/-- C2 (amended): for every `ExecuteQuery` whose SQL fails to parse or plan,
the stream carries exactly one frame — a `Complete` with `success = false`
and a non-empty `error_message` — and no Metadata and no DataChunk frames;
the RPC call itself completes without an error status (every item is
`Ok(frame)` and the handler returns `Ok`), the `InvalidSqlQuery →
InvalidArgument` status mapping existing but being unused on the streaming
path. -/
theorem execute_query_invalid_sql_stream (msg : String) :
    executeQueryStreamItems (.error (.invalidSqlQuery msg)) =
      [.ok (QueryFrame.complete
        { total_rows := 0, success := false,
          error_message := "Invalid SQL query: " ++ msg })]
    ∧ ("Invalid SQL query: " ++ msg) ≠ ""
    ∧ (executeQueryHandler (.error (.invalidSqlQuery msg))).isOk = true
    ∧ (∀ x ∈ executeQueryStreamItems (.error (.invalidSqlQuery msg)),
        x.isOk = true)
    ∧ statusOf (.invalidSqlQuery msg) = .invalidArgument := by
  refine ⟨rfl, ?_, rfl, ?_, rfl⟩
  · intro h
    have hlen := congrArg String.length h
    rw [String.length_append] at hlen
    have h1 : ("Invalid SQL query: ").length = 19 := by decide
    have h2 : ("" : String).length = 0 := rfl
    rw [h1, h2] at hlen
    omega
  · intro x hx
    simp [executeQueryStreamItems, errorFrames] at hx
    subst hx
    rfl

/-! ## Helper lemmas about the streaming upload -/

theorem uploadLoop_payloads_flatten : ∀ (chunks : List (List Nat)) (buffer : List Nat)
    (dst : String),
    (putPartPayloads (uploadLoop dst chunks buffer)).flatten = buffer ++ chunks.flatten := by
  intro chunks
  induction chunks with
  | nil =>
    intro buffer dst
    by_cases h : buffer.isEmpty
    · simp [uploadLoop, h, putPartPayloads, List.isEmpty_iff.mp h]
    · simp [uploadLoop, h, putPartPayloads]
  | cons c rest ih =>
    intro buffer dst
    by_cases h : BUFFER_SIZE ≤ buffer.length + c.length
    · simp [uploadLoop, List.length_append, h, putPartPayloads, ih]
    · simp [uploadLoop, List.length_append, h, ih]

theorem uploadLoop_ops : ∀ (chunks : List (List Nat)) (buffer : List Nat)
    (dst : String) (op : StorageOp), op ∈ uploadLoop dst chunks buffer →
    ∃ p, op = .putPart dst p := by
  intro chunks
  induction chunks with
  | nil =>
    intro buffer dst op h
    by_cases hb : buffer.isEmpty
    · simp [uploadLoop, hb] at h
    · simp [uploadLoop, hb] at h
      exact ⟨buffer, h⟩
  | cons c rest ih =>
    intro buffer dst op h
    by_cases hf : BUFFER_SIZE ≤ buffer.length + c.length
    · simp [uploadLoop, List.length_append, hf] at h
      rcases h with h | h
      · exact ⟨buffer ++ c, h⟩
      · exact ih _ _ _ h
    · simp [uploadLoop, List.length_append, hf] at h
      exact ih _ _ _ h

theorem uploadLoop_payloads_nonempty : ∀ (chunks : List (List Nat)) (buffer : List Nat)
    (dst : String) (p : List Nat),
    p ∈ putPartPayloads (uploadLoop dst chunks buffer) → p ≠ [] := by
  intro chunks
  induction chunks with
  | nil =>
    intro buffer dst p h
    by_cases hb : buffer.isEmpty
    · simp [uploadLoop, hb, putPartPayloads] at h
    · simp [uploadLoop, hb, putPartPayloads] at h
      subst h
      exact fun hnil => hb (by simp [hnil])
  | cons c rest ih =>
    intro buffer dst p h
    by_cases hf : BUFFER_SIZE ≤ buffer.length + c.length
    · simp [uploadLoop, List.length_append, hf, putPartPayloads] at h
      rcases h with h | h
      · subst h
        intro hnil
        have hlen := congrArg List.length hnil
        rw [List.length_append] at hlen
        simp only [List.length_nil] at hlen
        simp [BUFFER_SIZE] at hf
        omega
      · exact ih _ _ _ h
    · simp [uploadLoop, List.length_append, hf] at h
      exact ih _ _ _ h

/-- C3 (counterexample): the claim that each file copy "first attempts a
direct server-side copy(src, dst)" is false — on a concrete one-chunk file
the very first object-store operation is `get` on the source stream and the
trace contains no `copy` operation at all (`storage.rs` goes straight to
the streaming multipart upload). -/
theorem copy_strategy_counterexample :
    (copyFromExternalStorage "bkt" "s3://ext/data/file1.parquet" "ds_1"
        "file1.parquet" [[1, 2, 3]]).1 =
      [StorageOp.get "s3://ext/data/file1.parquet",
       StorageOp.putPart "datasets/ds_1/file1.parquet" [1, 2, 3],
       StorageOp.completeUpload "datasets/ds_1/file1.parquet"]
    ∧ traceHasCopy (copyFromExternalStorage "bkt" "s3://ext/data/file1.parquet"
        "ds_1" "file1.parquet" [[1, 2, 3]]).1 = false := by
  constructor
  · rfl
  · rfl

/-- C3 (amended): for every file copied during ingestion, the pipeline
performs a streaming multipart upload unconditionally — no direct
server-side `copy(src, dst)` is ever attempted. It opens the source `get()`
stream first, uploads the buffered parts (every part non-empty), completes
the upload, the uploaded bytes equal the source bytes in order, and the
destination object is written at `datasets/{dataset_id}/{filename}` in the
managed bucket. -/
theorem copy_streams_multipart (bucket sourcePath datasetId filename : String)
    (sourceChunks : List (List Nat)) :
    (copyFromExternalStorage bucket sourcePath datasetId filename sourceChunks).1 =
      StorageOp.get sourcePath ::
        (uploadLoop ("datasets/" ++ datasetId ++ "/" ++ filename) sourceChunks [] ++
         [StorageOp.completeUpload ("datasets/" ++ datasetId ++ "/" ++ filename)])
    ∧ traceHasCopy
        (copyFromExternalStorage bucket sourcePath datasetId filename sourceChunks).1 = false
    ∧ (putPartPayloads
        (copyFromExternalStorage bucket sourcePath datasetId filename sourceChunks).1).flatten
        = sourceChunks.flatten
    ∧ (∀ p ∈ putPartPayloads
        (copyFromExternalStorage bucket sourcePath datasetId filename sourceChunks).1,
        p ≠ [])
    ∧ (copyFromExternalStorage bucket sourcePath datasetId filename sourceChunks).2 =
        "gs://" ++ bucket ++ "/" ++ ("datasets/" ++ datasetId ++ "/" ++ filename) := by
  refine ⟨rfl, ?_, ?_, ?_, rfl⟩
  · have hall : ∀ op ∈ (copyFromExternalStorage bucket sourcePath datasetId filename
        sourceChunks).1, isCopyOp op = false := by
      intro op hop
      simp only [copyFromExternalStorage, List.mem_cons, List.mem_append,
        List.mem_singleton] at hop
      rcases hop with rfl | hop | rfl | h
      · rfl
      · rcases uploadLoop_ops _ _ _ _ hop with ⟨p, rfl⟩
        rfl
      · rfl
      · exact absurd h (List.not_mem_nil op)
    simp only [traceHasCopy, List.any_eq_false]
    intro op hop
    simp [hall op hop]
  · simp only [copyFromExternalStorage, putPartPayloads]
    have hsplit : ∀ (l : List StorageOp) (d : String),
        putPartPayloads (l ++ [StorageOp.completeUpload d]) = putPartPayloads l := by
      intro l d
      induction l with
      | nil => rfl
      | cons op rest ih => cases op <;> simp [putPartPayloads, ih]
    rw [hsplit]
    rw [uploadLoop_payloads_flatten]
    rfl
  · intro p hp
    simp only [copyFromExternalStorage, putPartPayloads] at hp
    have hsplit : ∀ (l : List StorageOp) (d : String),
        putPartPayloads (l ++ [StorageOp.completeUpload d]) = putPartPayloads l := by
      intro l d
      induction l with
      | nil => rfl
      | cons op rest ih => cases op <;> simp [putPartPayloads, ih]
    rw [hsplit] at hp
    exact uploadLoop_payloads_nonempty _ _ _ _ hp

/-- C4 (counterexample): ingestion is not all-or-nothing with respect to the
catalog. Concretely, when every copy succeeds and `add_dataset` succeeds
but `save_metadata` then fails, `add_dataset_from_external_path` returns an
error while the freshly generated `DatasetEntry` remains observable in the
catalog — the entry insert and the metadata write are two separate calls
(`dataset_manager.rs:230-231`), not one transaction. -/
theorem ingest_not_transactional_counterexample :
    (addDatasetFromExternalPath [] "ds_1" ["a.parquet"]
        ⟨fun _ => true, true, false⟩).1 = ["ds_1"]
    ∧ (addDatasetFromExternalPath [] "ds_1" ["a.parquet"]
        ⟨fun _ => true, true, false⟩).2 =
        .error (.configError "Failed to save metadata") := by
  exact ⟨rfl, rfl⟩

/-- C4 (amended): the DatasetEntry insert (`add_dataset`) and the
files/columns/statistics write (`save_metadata`) are two separate database
calls. A failure while copying or in `add_dataset` leaves the catalog
unchanged (no DatasetEntry under the fresh id); but when `save_metadata`
fails after `add_dataset` succeeded, the call fails while the DatasetEntry
remains observable. On full success the entry is observable and the id is
returned. -/
theorem ingest_catalog_effects (catalog : List String) (datasetId : String)
    (filenames : List String) (o : IngestOutcomes) :
    (∀ e, copyAllFiles o filenames = .error e →
      addDatasetFromExternalPath catalog datasetId filenames o = (catalog, .error e))
    ∧ (∀ fs, copyAllFiles o filenames = .ok fs → o.addDatasetOk = false →
      addDatasetFromExternalPath catalog datasetId filenames o =
        (catalog, .error (.configError "Failed to insert dataset")))
    ∧ (∀ fs, copyAllFiles o filenames = .ok fs → o.addDatasetOk = true →
      o.saveMetadataOk = false →
      addDatasetFromExternalPath catalog datasetId filenames o =
        (catalog ++ [datasetId], .error (.configError "Failed to save metadata")))
    ∧ (∀ fs, copyAllFiles o filenames = .ok fs → o.addDatasetOk = true →
      o.saveMetadataOk = true →
      addDatasetFromExternalPath catalog datasetId filenames o =
        (catalog ++ [datasetId], .ok datasetId)) := by
  refine ⟨?_, ?_, ?_, ?_⟩
  · intro e he
    simp [addDatasetFromExternalPath, he]
  · intro fs hfs hadd
    simp [addDatasetFromExternalPath, hfs, hadd]
  · intro fs hfs hadd hsave
    simp [addDatasetFromExternalPath, hfs, hadd, hsave]
  · intro fs hfs hadd hsave
    simp [addDatasetFromExternalPath, hfs, hadd, hsave]

/-- Total rows of a built stream result equal the total rows of the
kernel's batches. -/
theorem buildStreamResult_total_rows (batches : List RecordBatch) :
    ((buildStreamResult batches).chunks.map QueryDataChunk.chunk_rows).sum =
      (batches.map RecordBatch.numRows).sum := by
  cases batches with
  | nil => rfl
  | cons b bs =>
    simp only [buildStreamResult]
    rw [indexChunks_map_rows, sum_flatMap_chunkSizes]

/-- C5: `limit ≤ 0` is treated as no limit; a positive limit is appended as
` LIMIT L` exactly when the SQL does not contain the case-insensitive
substring `limit`, in which case — assuming the opaque kernel honours the
appended clause — `Complete.total_rows ≤ L`; SQL already containing the
substring is executed unchanged. -/
theorem execute_query_limit_law (exec : String → List RecordBatch)
    (sql : String) (L : Int) (hpos : 0 < L)
    (hno : containsLimitToken sql = false)
    (hk : ((exec (sql ++ " LIMIT " ++ toString L)).map RecordBatch.numRows).sum ≤ L.toNat) :
    executedSql sql L = sql ++ " LIMIT " ++ toString L
    ∧ ((buildStreamResult (exec (executedSql sql L))).chunks.map
        QueryDataChunk.chunk_rows).sum ≤ L.toNat
    ∧ (∀ M : Int, M ≤ 0 → executedSql sql M = sql)
    ∧ (∀ s : String, containsLimitToken s = true → executedSql s L = s) := by
  have hsql : executedSql sql L = sql ++ " LIMIT " ++ toString L := by
    simp [executedSql, normalizeLimit, applyLimit, hpos, hno]
  refine ⟨hsql, ?_, ?_, ?_⟩
  · rw [hsql, buildStreamResult_total_rows]
    exact hk
  · intro M hM
    have : ¬ M > 0 := by omega
    simp [executedSql, normalizeLimit, applyLimit, this]
  · intro s hs
    simp [executedSql, normalizeLimit, applyLimit, hpos, hs]

/-- Witness for `execute_query_limit_law` at concrete inputs. -/
theorem execute_query_limit_law_witness :
    ((0 : Int) < 5 ∧ containsLimitToken "SELECT 1" = false ∧
      (((fun _ => [RecordBatch.mk ["x"] 1]) ("SELECT 1" ++ " LIMIT " ++ toString (5 : Int))).map
        RecordBatch.numRows).sum ≤ (5 : Int).toNat)
    ∧ (executedSql "SELECT 1" 5 = "SELECT 1" ++ " LIMIT " ++ toString (5 : Int)
      ∧ ((buildStreamResult ((fun _ => [RecordBatch.mk ["x"] 1])
          (executedSql "SELECT 1" 5))).chunks.map QueryDataChunk.chunk_rows).sum ≤ (5 : Int).toNat
      ∧ (∀ M : Int, M ≤ 0 → executedSql "SELECT 1" M = "SELECT 1")
      ∧ (∀ s : String, containsLimitToken s = true → executedSql s 5 = s)) :=
  ⟨⟨by decide, by decide, by decide⟩,
   execute_query_limit_law (fun _ => [RecordBatch.mk ["x"] 1]) "SELECT 1" 5
     (by decide) (by decide) (by decide)⟩

/-- C6 (counterexample): an explicit format argument `"json"` is not
persisted as `json` — `AnalysisEngine::add_dataset_from_external_path`
maps every explicit format other than `"parquet"` to `Csv`, and the
persisted `DataFormat` type has no JSON variant at all. -/
theorem add_dataset_json_format_counterexample :
    persistedFormat (some "json") ["data.json"] = DataFormat.csv
    ∧ (persistedFormat (some "json") ["data.json"]).asStr = "csv"
    ∧ "csv" ≠ "json" := by
  refine ⟨by decide, by decide, by decide⟩

/-- C6 (amended): when an explicit format argument is given, the persisted
format is parquet exactly when the argument lowercases to `"parquet"`, and
csv for every other argument (including `"json"`); when no argument is
given, the format is parquet if any copied filename ends in `.parquet` and
csv otherwise; the persisted format only ever ranges over {csv, parquet}. -/
theorem add_dataset_format_determination (s : String) (files : List String) :
    persistedFormat (some s) files =
      (if lowerAscii s = "parquet" then DataFormat.parquet else DataFormat.csv)
    ∧ persistedFormat none files =
      (if files.any (fun f => f.endsWith ".parquet") then DataFormat.parquet
       else DataFormat.csv)
    ∧ ((persistedFormat (some s) files).asStr = "csv" ∨
       (persistedFormat (some s) files).asStr = "parquet")
    ∧ ((persistedFormat none files).asStr = "csv" ∨
       (persistedFormat none files).asStr = "parquet") := by
  refine ⟨rfl, rfl, ?_, ?_⟩
  · cases persistedFormat (some s) files <;> simp [DataFormat.asStr]
  · cases persistedFormat none files <;> simp [DataFormat.asStr]

/-- C7: for every existing dataset id, `GetMetadata` returns the catalog
metadata with its `columns` replaced by the kernel-inferred schema; for
every id with no catalog row it fails with `DatasetNotFound`, which the
status mapping turns into `NotFound`. -/
theorem get_metadata_kernel_columns (db : Db)
    (kernelSchema : String → Except AnalysisError (List ColumnInfo))
    (datasetId : String) :
    (dbGetDataset db datasetId = none →
      engineGetMetadata db kernelSchema datasetId =
        .error (.datasetNotFound datasetId)
      ∧ statusOf (.datasetNotFound datasetId) = .notFound)
    ∧ (∀ entry cols, dbGetDataset db datasetId = some entry →
        kernelSchema datasetId = .ok cols →
        ∃ md, engineGetMetadata db kernelSchema datasetId = .ok md
          ∧ md.columns = cols
          ∧ md.id = entry.id
          ∧ md.name = entry.name
          ∧ md.format = entry.format.asStr
          ∧ md.row_count = entry.row_count
          ∧ md.size_bytes = entry.size_bytes) := by
  constructor
  · intro hnone
    refine ⟨?_, rfl⟩
    simp only [engineGetMetadata, managerGetMetadata, hnone]
    rfl
  · intro entry cols hentry hcols
    simp only [engineGetMetadata, managerGetMetadata, hentry, hcols]
    exact ⟨_, rfl, rfl, rfl, rfl, rfl, rfl, rfl⟩

theorem exceptBind_ok {ε α β : Type} (a : α) (f : α → Except ε β) :
    (bind (Except.ok a) f : Except ε β) = f a := rfl

theorem exceptBind_err {ε α β : Type} (e : ε) (f : α → Except ε β) :
    (bind (Except.error e) f : Except ε β) = Except.error e := rfl

/-- The key just upserted is mapped to the new value. -/
theorem lookupKey_upsertRow_self {κ α : Type} [DecidableEq κ]
    (l : List (κ × α)) (key : κ) (a : α) :
    lookupKey (upsertRow l key a) key = some a := by
  induction l with
  | nil => simp [upsertRow, lookupKey]
  | cons kv rest ih =>
    by_cases hk : kv.1 = key
    · simp [upsertRow, hk, lookupKey]
    · simp [upsertRow, hk, lookupKey, ih]

/-- C8: statistics writes in `save_metadata` are idempotent upserts with
last-write-wins — saving `(dataset_id, k) → v1` and then `(dataset_id, k)
→ v2` succeeds and leaves `v2` in the catalog — while file and column rows
are insert-only (a duplicate key makes the transaction fail). -/
theorem save_metadata_stats_upsert (db : Db) (dsId k v1 v2 : String)
    (fs : List FileRow) (cs : List ColumnRow) (db1 : Db)
    (h1 : saveMetadata db ⟨dsId, fs, cs, [(k, v1)]⟩ = .ok db1) :
    (∃ db2, saveMetadata db1 ⟨dsId, [], [], [(k, v2)]⟩ = .ok db2
      ∧ lookupKey db2.stats (dsId, k) = some v2)
    ∧ lookupKey db1.stats (dsId, k) = some v1
    ∧ (∀ (db' : Db) (f : FileRow) (cs' : List ColumnRow)
        (st : List (String × String)),
        (lookupKey db'.files (dsId, f.filename)).isSome = true →
        saveMetadata db' ⟨dsId, [f], cs', st⟩ =
          .error (.configError "Failed to insert dataset file: duplicate key"))
    ∧ (∀ (db' : Db) (c : ColumnRow) (st : List (String × String)),
        (lookupKey db'.columns (dsId, c.name)).isSome = true →
        saveMetadata db' ⟨dsId, [], [c], st⟩ =
          .error (.configError "Failed to insert dataset column: duplicate key")) := by
  refine ⟨⟨{ db1 with stats := upsertRow db1.stats (dsId, k) v2 }, rfl,
      lookupKey_upsertRow_self _ _ _⟩, ?_, ?_, ?_⟩
  · simp only [saveMetadata] at h1
    cases hfe : fs.foldlM (fun acc f => insertFileRow acc dsId f) db with
    | error e =>
      rw [hfe, exceptBind_err] at h1
      exact Except.noConfusion h1
    | ok dbf =>
      rw [hfe, exceptBind_ok] at h1
      cases hce : cs.foldlM (fun acc c => insertColumnRow acc dsId c) dbf with
      | error e =>
        rw [hce, exceptBind_err] at h1
        exact Except.noConfusion h1
      | ok dbc =>
        rw [hce, exceptBind_ok] at h1
        simp only [List.foldl, pure, Except.pure, Except.ok.injEq] at h1
        rw [← h1]
        exact lookupKey_upsertRow_self _ _ _
  · intro db' f cs' st hdup
    simp [saveMetadata, insertFileRow, hdup, exceptBind_ok, exceptBind_err,
      pure, Except.pure]
  · intro db' c st hdup
    simp [saveMetadata, insertColumnRow, hdup, exceptBind_ok, exceptBind_err,
      pure, Except.pure]

/-- Witness for `save_metadata_stats_upsert` at concrete inputs. -/
theorem save_metadata_stats_upsert_witness :
    saveMetadata ⟨[], [], [], []⟩
        ⟨"ds_1", [⟨"a.csv", "gs://bkt/datasets/ds_1/a.csv", 0, 0⟩], [],
          [("row_count", "1")]⟩ =
      .ok ⟨[], [(("ds_1", "a.csv"), ⟨"a.csv", "gs://bkt/datasets/ds_1/a.csv", 0, 0⟩)],
        [], [(("ds_1", "row_count"), "1")]⟩
    ∧ ((∃ db2, saveMetadata
          ⟨[], [(("ds_1", "a.csv"), ⟨"a.csv", "gs://bkt/datasets/ds_1/a.csv", 0, 0⟩)],
            [], [(("ds_1", "row_count"), "1")]⟩
          ⟨"ds_1", [], [], [("row_count", "2")]⟩ = .ok db2
        ∧ lookupKey db2.stats ("ds_1", "row_count") = some "2")
      ∧ lookupKey
          (⟨[], [(("ds_1", "a.csv"), ⟨"a.csv", "gs://bkt/datasets/ds_1/a.csv", 0, 0⟩)],
            [], [(("ds_1", "row_count"), "1")]⟩ : Db).stats ("ds_1", "row_count") = some "1"
      ∧ (∀ (db' : Db) (f : FileRow) (cs' : List ColumnRow)
          (st : List (String × String)),
          (lookupKey db'.files ("ds_1", f.filename)).isSome = true →
          saveMetadata db' ⟨"ds_1", [f], cs', st⟩ =
            .error (.configError "Failed to insert dataset file: duplicate key"))
      ∧ (∀ (db' : Db) (c : ColumnRow) (st : List (String × String)),
          (lookupKey db'.columns ("ds_1", c.name)).isSome = true →
          saveMetadata db' ⟨"ds_1", [], [c], st⟩ =
            .error (.configError "Failed to insert dataset column: duplicate key"))) :=
  ⟨rfl,
   save_metadata_stats_upsert ⟨[], [], [], []⟩ "ds_1" "row_count" "1" "2"
     [⟨"a.csv", "gs://bkt/datasets/ds_1/a.csv", 0, 0⟩] [] _ rfl⟩

/-- C9: the `AddDataset` handler never raises an error status: an empty
name or source path yields `success = false` with a human-readable message,
an engine failure yields `success = false` with a fixed sanitised message
that carries no backend detail, and success yields `success = true` with
the new dataset id and the freshly-listed dataset when it can be re-read. -/
theorem add_dataset_rpc_total (req : AddDatasetRequest)
    (engineResult : Except AnalysisError String) (listing : List DatasetDto) :
    (addDatasetHandler req engineResult listing).isOk = true
    ∧ (req.name = "" → addDatasetHandler req engineResult listing =
        .ok ⟨false, "", "Dataset name is required", none⟩)
    ∧ (req.name ≠ "" → req.source_path = "" →
        addDatasetHandler req engineResult listing =
          .ok ⟨false, "", "Source path is required", none⟩)
    ∧ (∀ e, req.name ≠ "" → req.source_path ≠ "" → engineResult = .error e →
        addDatasetHandler req engineResult listing =
          .ok ⟨false, "",
            "Failed to add dataset. Please check the source path and try again.",
            none⟩)
    ∧ (∀ datasetId, req.name ≠ "" → req.source_path ≠ "" →
        engineResult = .ok datasetId →
        addDatasetHandler req engineResult listing =
          .ok ⟨true, datasetId,
            "Dataset \x27" ++ datasetId ++ "\x27 added successfully",
            listing.find? (fun d => d.id = datasetId)⟩) := by
  refine ⟨?_, ?_, ?_, ?_, ?_⟩
  · unfold addDatasetHandler
    repeat' split
    all_goals rfl
  · intro hn
    simp [addDatasetHandler, hn]
  · intro hn hp
    simp [addDatasetHandler, hn, hp]
  · intro e hn hp he
    simp [addDatasetHandler, hn, hp, he]
  · intro datasetId hn hp hok
    simp only [addDatasetHandler, hn, hp, hok, if_neg hn, if_neg hp]
    cases hfind : listing.find? (fun d => d.id = datasetId) <;> simp [hfind]

/-- C10: when the optional `limit` argument of the Tool-Host `execute_query`
or `mcp_reader-servic_query_dataset` tools is omitted, the façade's RPC
client sends the `ExecuteQuery` request with `limit = 1000`
(`limit.unwrap_or(1000)`), so such tool queries are capped at 1000 rows. -/
theorem tool_query_default_limit (datasetId sqlQuery : String)
    (params : ExecuteQueryParams) (ds : VsCodeDataset) :
    (clientExecuteQueryRequest datasetId sqlQuery none).limit = 1000
    ∧ (∀ l : Int, (clientExecuteQueryRequest datasetId sqlQuery (some l)).limit = l)
    ∧ (params.limit = none → handleExecuteQueryRequest params =
        { dataset_id := params.dataset_id, sql_query := params.sql_query,
          limit := 1000 })
    ∧ handleVsCodeQueryRequest ds none =
        { dataset_id := ds.path, sql_query := ds.sql, limit := 1000 } := by
  refine ⟨rfl, fun l => rfl, ?_, rfl⟩
  intro h
  simp [handleExecuteQueryRequest, clientExecuteQueryRequest, h]

end AnalysisView
